import Mathlib

/-!
Shallow embedding of the student-risk-dashboard pipeline (src/app.py).

Numbers are modelled as rationals (`ℚ`): the Python code works on pandas
float64 columns, and every operation used (mean, max, comparisons with the
integer thresholds 75/90/40/80/0) is exact on the inputs of interest.
Tabular per-event data (attendance, tests, fees) is modelled as a list of
(student_id, value) pairs; the roster as a list of `Student`.
-/

namespace Dashboard

/-- One roster row of students.csv after the rename map has been applied
(app.py line 49): a student identifier and a name. -/
structure Student where
  student_id : Int
  name : String
deriving Repr, DecidableEq

/-- One classified output row of the `merged` table (app.py lines 64-96). -/
structure Profile where
  student_id : Int
  name : String
  attendance_percentage : ℚ
  avg_score : ℚ
  due_amount : ℚ
  status : String
  reasons : String
deriving Repr, DecidableEq

/-- First-occurrence-ordered distinct keys of an event table, the group keys
of `groupby("student_id")` (key order is irrelevant downstream: the left
joins are keyed lookups). -/
def groupKeys (l : List (Int × ℚ)) : List Int :=
  (l.map Prod.fst).dedup

/-- Values of the event table belonging to one student key. -/
def valuesFor (k : Int) (l : List (Int × ℚ)) : List ℚ :=
  (l.filter (fun e => e.1 == k)).map Prod.snd

/-- Arithmetic mean of a list of rationals (pandas `.mean()` on a group,
which is always non-empty). -/
def listMean (l : List ℚ) : ℚ :=
  l.sum / l.length

/-- Maximum of a list of rationals (pandas `.max()` on a non-empty group);
0 on the empty list, which never arises for a group. -/
def listMaxD : List ℚ → ℚ
  | [] => 0
  | x :: xs => xs.foldl max x

/-- The aggregate `attendance.groupby("student_id")[col].mean().reset_index()`
of app.py lines 57-58: one (student_id, mean value) row per distinct key. -/
def groupMean (l : List (Int × ℚ)) : List (Int × ℚ) :=
  (groupKeys l).map (fun k => (k, listMean (valuesFor k l)))

/-- The aggregate `fees.groupby("student_id")["due_amount"].max().reset_index()`
of app.py line 59: one (student_id, max value) row per distinct key. -/
def groupMax (l : List (Int × ℚ)) : List (Int × ℚ) :=
  (groupKeys l).map (fun k => (k, listMaxD (valuesFor k l)))

/-- First value stored under a key in an association list. Together with
`Option.getD 0` this is the composition `merge(..., how="left")` followed by
`fillna(0)` and `pd.to_numeric(...).fillna(0)` of app.py lines 64-74, exact
because the right-hand tables of every merge are groupby outputs and hence
have pairwise-distinct keys. -/
def lookupQ : List (Int × ℚ) → Int → Option ℚ
  | [], _ => none
  | e :: t, k => if e.1 = k then some e.2 else lookupQ t k

/-- Reason labels accumulated by `risk_status` (app.py lines 80-90), in the
code's evaluation order: attendance branch (if/elif), score branch (if/elif),
fees check. -/
def riskReasons (att score due : ℚ) : List String :=
  (if att < 75 then ["Low Attendance"]
   else if att ≥ 90 then ["Excellent Attendance ✅"] else []) ++
  (if score < 40 then ["Low Test Score"]
   else if score ≥ 80 then ["Strong Test Score ✅"] else []) ++
  (if due > 0 then ["Pending Fees"] else [])

/-- The row classifier `risk_status` of app.py lines 79-94: returns the
(status, reasons) pair. -/
def risk_status (att score due : ℚ) : String × String :=
  if (riskReasons att score due).isEmpty then ("Safe", "No issues")
  else ("At Risk", String.intercalate "; " (riskReasons att score due))

/-- One row of the final `merged` table: the left-join lookups with 0 default
(app.py lines 64-74), then the classifier applied row-wise (line 96). -/
def profileRow (attA testsA feesA : List (Int × ℚ)) (s : Student) : Profile :=
  let att := (lookupQ attA s.student_id).getD 0
  let sc := (lookupQ testsA s.student_id).getD 0
  let due := (lookupQ feesA s.student_id).getD 0
  { student_id := s.student_id
    name := s.name
    attendance_percentage := att
    avg_score := sc
    due_amount := due
    status := (risk_status att sc due).1
    reasons := (risk_status att sc due).2 }

/-- The full aggregate-merge-classify pipeline of app.py lines 57-96,
from the loaded tables to the classified `merged` table. -/
def buildProfiles (students : List Student)
    (attendance tests fees : List (Int × ℚ)) : List Profile :=
  students.map (profileRow (groupMean attendance) (groupMean tests) (groupMax fees))

/-! ### Loader (app.py lines 31-52), missing-file branch -/

/-- Column set of the empty table returned by `safe_load_csv` when the file
is absent (app.py lines 42-44):
`cols = list(rename_cols.values()) if rename_cols else required_cols`.
Every call site passes either `None` or a non-empty dict for `rename_cols`,
so Python truthiness coincides with the `Option` match. -/
def missingSourceColumns (rename_cols : Option (List (String × String)))
    (required_cols : Option (List String)) : Option (List String) :=
  match rename_cols with
  | some rc => some (rc.map Prod.snd)
  | none => required_cols

/-- Missing-file column set for students.csv (app.py line 49). -/
def studentsMissingCols : Option (List String) :=
  missingSourceColumns (some [("full_name", "name")]) (some ["student_id", "name"])

/-- Missing-file column set for attendance.csv (app.py line 50). -/
def attendanceMissingCols : Option (List String) :=
  missingSourceColumns none (some ["student_id", "attendance_percentage"])

/-- Missing-file column set for tests.csv (app.py line 51). -/
def testsMissingCols : Option (List String) :=
  missingSourceColumns (some [("test_score", "score")]) (some ["student_id", "score"])

/-- Missing-file column set for fees.csv (app.py line 52). -/
def feesMissingCols : Option (List String) :=
  missingSourceColumns (some [("pending_amount", "due_amount")]) (some ["student_id", "due_amount"])

/-! ### Version counter (app.py lines 12-23) -/

/-- The `get_next_version` function of app.py lines 12-21: reads the stored
counter (`none` when version.txt does not exist, modelled as 0), increments
it, and returns the version string together with the number written back. -/
def get_next_version (stored : Option Nat) : String × Nat :=
  let number := stored.getD 0 + 1
  ("beta_" ++ toString number, number)

/-- The four loaded input tables, already under canonical column names. -/
structure InputFiles where
  students : List Student
  attendance : List (Int × ℚ)
  tests : List (Int × ℚ)
  fees : List (Int × ℚ)

/-- Observable state after the module-level startup code of app.py has run:
the version string, the counter written to version.txt, and the classified
table. -/
structure AppState where
  version_string : String
  version_file : Nat
  profiles : List Profile

/-- Startup of app.py: bump the version counter (lines 12-23), then build
the classified table (lines 49-96). The classifier pipeline takes only the
input files; the version state feeds only the version fields. -/
def runApp (stored : Option Nat) (files : InputFiles) : AppState :=
  { version_string := (get_next_version stored).1
    version_file := (get_next_version stored).2
    profiles := buildProfiles files.students files.attendance files.tests files.fees }

/-! ### Filter/Projection (app.py lines 245-262) -/

/-- Case-sensitive ASCII substring test at the head of a character list. -/
def leadMatch : List Char → List Char → Bool
  | [], _ => true
  | _ :: _, [] => false
  | a :: as, b :: bs => a == b && leadMatch as bs

/-- Substring containment on character lists (Python `in` semantics: the
empty needle matches everything). -/
def subMatch (needle : List Char) : List Char → Bool
  | [] => needle.isEmpty
  | c :: t => leadMatch needle (c :: t) || subMatch needle t

/-- Case-insensitive substring containment, the effect of
`str.contains(search, case=False)` on a plain (regex-free) search string. -/
def strContainsCI (hay needle : String) : Bool :=
  subMatch needle.toLower.toList hay.toLower.toList

/-- Case-sensitive substring containment, the effect of
`astype(str).str.contains(search)` on a plain search string. -/
def strContainsCS (hay needle : String) : Bool :=
  subMatch needle.toList hay.toList

/-- The search predicate of app.py lines 250-253: case-insensitive match
against the name, or case-sensitive match against the id rendered as text. -/
def matchesSearch (s : String) (p : Profile) : Bool :=
  strContainsCI p.name s || strContainsCS (toString p.student_id) s

/-- The search stage (app.py line 249): `if search_value:` skips the filter
for `None` and for the empty string (both falsy). -/
def applySearch (so : Option String) (l : List Profile) : List Profile :=
  match so with
  | none => l
  | some s => if s = "" then l else l.filter (matchesSearch s)

/-- An inclusive numeric range stage (app.py lines 255, 257, 259):
`filtered[(field >= lo) & (field <= hi)]`. -/
def applyRange (f : Profile → ℚ) (lo hi : ℚ) (l : List Profile) : List Profile :=
  l.filter (fun p => decide (lo ≤ f p) && decide (f p ≤ hi))

/-- The status stage (app.py lines 261-262): skipped when the dropdown says
"All", otherwise an equality filter. -/
def applyStatus (st : String) (l : List Profile) : List Profile :=
  if st = "All" then l else l.filter (fun p => p.status == st)

/-- The UI filter criteria fed to `update_dashboard`. -/
structure Criteria where
  search : Option String
  att_lo : ℚ
  att_hi : ℚ
  score_lo : ℚ
  score_hi : ℚ
  fees_lo : ℚ
  fees_hi : ℚ
  status : String

/-- The row-filtering part of `update_dashboard` (app.py lines 245-262), the
five stages in the code's order. -/
def filterProfiles (c : Criteria) (l : List Profile) : List Profile :=
  applyStatus c.status
    (applyRange (fun p => p.due_amount) c.fees_lo c.fees_hi
      (applyRange (fun p => p.avg_score) c.score_lo c.score_hi
        (applyRange (fun p => p.attendance_percentage) c.att_lo c.att_hi
          (applySearch c.search l))))

/-- The widgets' initial values (app.py lines 110-159): no search text,
full-width slider ranges [0,100], [0,100], [0,5000], status "All". -/
def defaultCriteria : Criteria :=
  { search := none
    att_lo := 0, att_hi := 100
    score_lo := 0, score_hi := 100
    fees_lo := 0, fees_hi := 5000
    status := "All" }

/-- Modelled from the spec (section 4.2 step 7, absent from the code): a
rational is representable with two decimal places exactly when 100 times it
is an integer; any rounding to two decimal places lands in this set. -/
def specHasTwoDecimals (x : ℚ) : Prop :=
  ∃ n : ℤ, x * 100 = (n : ℚ)

/-! ### Helper lemmas -/

theorem lookupQ_mem {l : List (Int × ℚ)} {k : Int} {v : ℚ}
    (h : lookupQ l k = some v) : (k, v) ∈ l := by
  induction l with
  | nil => simp [lookupQ] at h
  | cons e t ih =>
    by_cases he : e.1 = k
    · simp only [lookupQ, if_pos he] at h
      obtain rfl := Option.some.inj h
      rw [← he]
      exact List.mem_cons_self e t
    · simp only [lookupQ, if_neg he] at h
      exact List.mem_cons_of_mem _ (ih h)

theorem lookupQ_eq_none {l : List (Int × ℚ)} {k : Int}
    (h : ∀ e ∈ l, e.1 ≠ k) : lookupQ l k = none := by
  induction l with
  | nil => rfl
  | cons e t ih =>
    simp only [lookupQ, if_neg (h e (List.mem_cons_self e t))]
    exact ih (fun x hx => h x (List.mem_cons_of_mem _ hx))

theorem groupMean_fst_mem {l : List (Int × ℚ)} {e : Int × ℚ}
    (h : e ∈ groupMean l) : e.1 ∈ l.map Prod.fst := by
  obtain ⟨k, hk, rfl⟩ := List.mem_map.mp h
  exact (List.mem_dedup.mp hk)

theorem groupMax_fst_mem {l : List (Int × ℚ)} {e : Int × ℚ}
    (h : e ∈ groupMax l) : e.1 ∈ l.map Prod.fst := by
  obtain ⟨k, hk, rfl⟩ := List.mem_map.mp h
  exact (List.mem_dedup.mp hk)

theorem groupMean_lookup_none {l : List (Int × ℚ)} {k : Int}
    (h : ∀ e ∈ l, e.1 ≠ k) : lookupQ (groupMean l) k = none := by
  apply lookupQ_eq_none
  intro e he hk
  obtain ⟨ev, hev, hfst⟩ := List.mem_map.mp (groupMean_fst_mem he)
  exact h ev hev (hfst.trans hk)

theorem groupMax_lookup_none {l : List (Int × ℚ)} {k : Int}
    (h : ∀ e ∈ l, e.1 ≠ k) : lookupQ (groupMax l) k = none := by
  apply lookupQ_eq_none
  intro e he hk
  obtain ⟨ev, hev, hfst⟩ := List.mem_map.mp (groupMax_fst_mem he)
  exact h ev hev (hfst.trans hk)

theorem risk_status_zero :
    risk_status 0 0 0 = ("At Risk", "Low Attendance; Low Test Score") := by
  decide

theorem length_filter_map_eq {α β : Type} (f : α → β) (p : β → Bool) (l : List α) :
    ((l.map f).filter p).length = (l.filter (fun a => p (f a))).length := by
  induction l with
  | nil => rfl
  | cons a t ih => by_cases h : p (f a) <;> simp [List.filter_cons, h, ih]

theorem length_filter_eq_one_of_nodup {l : List Int} (hnd : l.Nodup) {i : Int}
    (hi : i ∈ l) : (l.filter (fun x => x == i)).length = 1 := by
  induction l with
  | nil => cases hi
  | cons a t ih =>
    obtain ⟨hna, hndt⟩ := List.nodup_cons.mp hnd
    rcases List.mem_cons.mp hi with rfl | hmem
    · have ht : t.filter (fun x => x == i) = [] := by
        refine List.filter_eq_nil_iff.mpr (fun x hx => ?_)
        simp only [beq_iff_eq]
        rintro rfl
        exact hna hx
      simp [List.filter_cons, ht]
    · have hne : (a == i) = false := by
        simp only [beq_eq_false_iff_ne, ne_eq]
        rintro rfl
        exact hna hmem
      simp [List.filter_cons, hne, ih hndt hmem]

theorem foldl_max_nonneg (xs : List ℚ) (x : ℚ) (hx : 0 ≤ x) :
    0 ≤ xs.foldl max x := by
  induction xs generalizing x with
  | nil => exact hx
  | cons y t ih => exact ih (max x y) (le_trans hx (le_max_left x y))

theorem listMean_nonneg {l : List ℚ} (h : ∀ x ∈ l, 0 ≤ x) : 0 ≤ listMean l :=
  div_nonneg (List.sum_nonneg h) (Nat.cast_nonneg _)

theorem listMaxD_nonneg {l : List ℚ} (h : ∀ x ∈ l, 0 ≤ x) : 0 ≤ listMaxD l := by
  cases l with
  | nil => exact le_refl 0
  | cons x xs => exact foldl_max_nonneg xs x (h x (List.mem_cons_self x xs))

theorem valuesFor_nonneg {l : List (Int × ℚ)} (h : ∀ e ∈ l, 0 ≤ e.2) (k : Int) :
    ∀ x ∈ valuesFor k l, 0 ≤ x := by
  intro x hx
  obtain ⟨e, he, rfl⟩ := List.mem_map.mp hx
  exact h e (List.mem_of_mem_filter he)

theorem groupMean_lookup_nonneg {l : List (Int × ℚ)} (h : ∀ e ∈ l, 0 ≤ e.2)
    (k : Int) : 0 ≤ (lookupQ (groupMean l) k).getD 0 := by
  cases hc : lookupQ (groupMean l) k with
  | none => simp
  | some v =>
    obtain ⟨key, hkey, hpair⟩ := List.mem_map.mp (lookupQ_mem hc)
    injection hpair with h1 h2
    subst h2
    exact listMean_nonneg (valuesFor_nonneg h key)

theorem groupMax_lookup_nonneg {l : List (Int × ℚ)} (h : ∀ e ∈ l, 0 ≤ e.2)
    (k : Int) : 0 ≤ (lookupQ (groupMax l) k).getD 0 := by
  cases hc : lookupQ (groupMax l) k with
  | none => simp
  | some v =>
    obtain ⟨key, hkey, hpair⟩ := List.mem_map.mp (lookupQ_mem hc)
    injection hpair with h1 h2
    subst h2
    exact listMaxD_nonneg (valuesFor_nonneg h key)

theorem groupMean_singleton (k : Int) (x : ℚ) : groupMean [(k, x)] = [(k, x)] := by
  simp [groupMean, groupKeys, valuesFor, listMean]

theorem groupMax_singleton (k : Int) (x : ℚ) : groupMax [(k, x)] = [(k, x)] := by
  simp [groupMax, groupKeys, valuesFor, listMaxD]

/-! ### Claim theorems -/

/-- C1: evaluation of the classifier at attendance 95, score 50, fees 0.
No negative threshold is crossed (95 is not below 75, 50 is not below 40,
the due amount is not positive), yet `risk_status` returns status "At Risk"
with the single informational reason "Excellent Attendance ✅": the
informational label alone does make a row At Risk, contradicting the claim. -/
theorem c1_code_eval :
    risk_status 95 50 0 = ("At Risk", "Excellent Attendance ✅") ∧
    ¬ ((95 : ℚ) < 75 ∨ (50 : ℚ) < 40 ∨ (0 : ℚ) > 0) := by
  decide

/-- C2 counterexample: a roster student with no attendance, test or fee
events gets all three aggregates 0, but the pipeline classifies the row
"At Risk" with reasons "Low Attendance; Low Test Score", not Safe with
"No issues" as the claim states. -/
theorem c2_counterexample :
    buildProfiles [⟨1, "A"⟩] [] [] [] =
      [⟨1, "A", 0, 0, 0, "At Risk", "Low Attendance; Low Test Score"⟩] ∧
    "At Risk" ≠ "Safe" ∧
    "Low Attendance; Low Test Score" ≠ "No issues" := by
  decide

/-- C2 amended: every roster student with zero attendance events, zero test
events, and zero fee events ends the pipeline with avg_attendance = 0,
avg_score = 0, due_amount = 0, status = "At Risk", and reasons =
"Low Attendance; Low Test Score" (the zero defaults cross both the
attendance and the score thresholds). -/
theorem c2_amended (students : List Student) (att tests fees : List (Int × ℚ))
    (s : Student) (hs : s ∈ students)
    (ha : ∀ e ∈ att, e.1 ≠ s.student_id)
    (ht : ∀ e ∈ tests, e.1 ≠ s.student_id)
    (hf : ∀ e ∈ fees, e.1 ≠ s.student_id) :
    ({ student_id := s.student_id, name := s.name, attendance_percentage := 0,
       avg_score := 0, due_amount := 0, status := "At Risk",
       reasons := "Low Attendance; Low Test Score" } : Profile)
      ∈ buildProfiles students att tests fees := by
  have hrow : profileRow (groupMean att) (groupMean tests) (groupMax fees) s =
      { student_id := s.student_id, name := s.name, attendance_percentage := 0,
        avg_score := 0, due_amount := 0, status := "At Risk",
        reasons := "Low Attendance; Low Test Score" } := by
    simp [profileRow, groupMean_lookup_none ha, groupMean_lookup_none ht,
      groupMax_lookup_none hf, risk_status_zero]
  exact hrow ▸ List.mem_map_of_mem _ hs

/-- C2 witness: the amended classification at a concrete one-student roster
with empty event tables. -/
theorem c2_amended_witness :
    ({ student_id := 1, name := "A", attendance_percentage := 0,
       avg_score := 0, due_amount := 0, status := "At Risk",
       reasons := "Low Attendance; Low Test Score" } : Profile)
      ∈ buildProfiles [⟨1, "A"⟩] [] [] [] :=
  c2_amended [⟨1, "A"⟩] [] [] [] ⟨1, "A"⟩ (by simp)
    (by simp) (by simp) (by simp)

/-- C3: evaluation of the missing-file branch of `safe_load_csv` at all four
call sites. For the three sources loaded with a rename map the empty table's
columns are only the rename-map target names, not the declared required
columns: students gets ["name"] instead of ["student_id", "name"], tests
gets ["score"], fees gets ["due_amount"]; only attendance (no rename map)
gets its required columns, contradicting the claim for three of the four
sources. -/
theorem c3_code_eval :
    studentsMissingCols = some ["name"] ∧
    testsMissingCols = some ["score"] ∧
    feesMissingCols = some ["due_amount"] ∧
    attendanceMissingCols = some ["student_id", "attendance_percentage"] ∧
    some ["name"] ≠ some ["student_id", "name"] ∧
    some ["score"] ≠ some ["student_id", "score"] ∧
    some ["due_amount"] ≠ some ["student_id", "due_amount"] := by
  decide

/-- C4 counterexample: three attendance observations 70, 70, 71 give the
mean 211/3, and the pipeline exposes exactly 211/3, a value that is not
representable with two decimal places at all — so no rounding to two
decimal places happens before the output boundary. -/
theorem c4_counterexample :
    (buildProfiles [⟨1, "A"⟩] [(1, 70), (1, 70), (1, 71)] [] []).map
        (fun p => p.attendance_percentage) = [211 / 3] ∧
    ¬ specHasTwoDecimals (211 / 3) := by
  constructor
  · simp [buildProfiles, profileRow, groupMean, groupMax, groupKeys, valuesFor,
      listMean, listMaxD, lookupQ]
    norm_num
  · rintro ⟨n, hn⟩
    have h3 : (21100 : ℚ) = 3 * (n : ℚ) := by
      field_simp at hn
      linarith
    have h4 : (21100 : ℤ) = 3 * n := by exact_mod_cast h3
    omega

/-- C4 amended: no rounding is applied anywhere in the pipeline — every
classified row exposes its attendance, score and due fields exactly as the
raw (unrounded) aggregate-lookup values. -/
theorem c4_amended (students : List Student) (att tests fees : List (Int × ℚ))
    (p : Profile) (hp : p ∈ buildProfiles students att tests fees) :
    p.attendance_percentage = (lookupQ (groupMean att) p.student_id).getD 0 ∧
    p.avg_score = (lookupQ (groupMean tests) p.student_id).getD 0 ∧
    p.due_amount = (lookupQ (groupMax fees) p.student_id).getD 0 := by
  obtain ⟨s, _, rfl⟩ := List.mem_map.mp hp
  exact ⟨rfl, rfl, rfl⟩

/-- C4 witness: the raw-value pass-through at a concrete one-student input. -/
theorem c4_amended_witness :
    (Profile.mk 1 "A" 0 0 0 "At Risk" "Low Attendance; Low Test Score").attendance_percentage
      = (lookupQ (groupMean ([] : List (Int × ℚ))) 1).getD 0 ∧
    (Profile.mk 1 "A" 0 0 0 "At Risk" "Low Attendance; Low Test Score").avg_score
      = (lookupQ (groupMean ([] : List (Int × ℚ))) 1).getD 0 ∧
    (Profile.mk 1 "A" 0 0 0 "At Risk" "Low Attendance; Low Test Score").due_amount
      = (lookupQ (groupMax ([] : List (Int × ℚ))) 1).getD 0 :=
  c4_amended [⟨1, "A"⟩] [] [] [] _ (by decide)

/-- C5 counterexample: a range criterion with low 90 above high 10 filters
out a row whose attendance is 80; the result is empty, not the identity the
claim requires. -/
theorem c5_counterexample :
    filterProfiles ⟨none, 90, 10, 0, 100, 0, 5000, "All"⟩
        [⟨1, "A", 80, 50, 0, "Safe", "No issues"⟩] = [] ∧
    ([] : List Profile) ≠ [⟨1, "A", 80, 50, 0, "Safe", "No issues"⟩] := by
  decide

/-- C5 amended: a numeric range criterion with low > high (on any of the
three range filters) makes the filter return the empty subset — every row is
excluded, rather than the range acting as the identity; within this
(regex-free substring search) embedding the filter is a total function, so
it never fails. -/
theorem c5_amended (c : Criteria) (l : List Profile)
    (h : c.att_hi < c.att_lo ∨ c.score_hi < c.score_lo ∨ c.fees_hi < c.fees_lo) :
    filterProfiles c l = [] := by
  have hnil : ∀ (f : Profile → ℚ) (lo hi : ℚ), hi < lo →
      ∀ m : List Profile, applyRange f lo hi m = [] := by
    intro f lo hi hlt m
    refine List.filter_eq_nil_iff.mpr (fun p _ => ?_)
    simp only [Bool.and_eq_true, decide_eq_true_eq, not_and]
    intro h1 h2
    exact absurd (le_trans h1 h2) (not_le.mpr hlt)
  have hemp : ∀ (f : Profile → ℚ) (lo hi : ℚ), applyRange f lo hi [] = [] :=
    fun _ _ _ => rfl
  have hstat : applyStatus c.status [] = [] := by
    unfold applyStatus
    split <;> rfl
  unfold filterProfiles
  rcases h with h | h | h
  · rw [hnil _ _ _ h, hemp, hemp, hstat]
  · rw [hnil _ _ _ h, hemp, hstat]
  · rw [hnil _ _ _ h, hstat]

/-- C5 witness: an inverted attendance range empties a concrete row list. -/
theorem c5_amended_witness :
    filterProfiles ⟨none, 90, 10, 0, 100, 0, 5000, "All"⟩
        [⟨2, "B", 80, 50, 0, "Safe", "No issues"⟩] = [] :=
  c5_amended ⟨none, 90, 10, 0, 100, 0, 5000, "All"⟩
    [⟨2, "B", 80, 50, 0, "Safe", "No issues"⟩] (Or.inl (by norm_num))

/-- C6: the classified table has exactly the roster's student_id column, row
for row and in order, whatever the event tables contain; and when the roster
ids are pairwise distinct, each roster id occurs in exactly one classified
row (cardinality-preserving left join: nothing dropped, nothing
duplicated). -/
theorem c6_confirmed (students : List Student) (att tests fees : List (Int × ℚ))
    (i : Int) (hnd : (students.map Student.student_id).Nodup)
    (hi : i ∈ students.map Student.student_id) :
    (buildProfiles students att tests fees).map Profile.student_id
        = students.map Student.student_id ∧
    ((buildProfiles students att tests fees).filter
        (fun p => p.student_id == i)).length = 1 := by
  constructor
  · unfold buildProfiles
    rw [List.map_map]
    rfl
  · have h1 : ((buildProfiles students att tests fees).filter
        (fun p => p.student_id == i)).length
        = (students.filter (fun s => s.student_id == i)).length :=
      length_filter_map_eq (profileRow (groupMean att) (groupMean tests) (groupMax fees))
        (fun p => p.student_id == i) students
    have h2 : (students.filter (fun s => s.student_id == i)).length
        = ((students.map Student.student_id).filter (fun x => x == i)).length :=
      (length_filter_map_eq Student.student_id (fun x => x == i) students).symm
    rw [h1, h2]
    exact length_filter_eq_one_of_nodup hnd hi

/-- C6 witness: a two-student roster with one attendance event, id 1. -/
theorem c6_confirmed_witness :
    (buildProfiles [⟨1, "A"⟩, ⟨2, "B"⟩] [(1, 50)] [] []).map Profile.student_id
        = [Student.mk 1 "A", Student.mk 2 "B"].map Student.student_id ∧
    ((buildProfiles [⟨1, "A"⟩, ⟨2, "B"⟩] [(1, 50)] [] []).filter
        (fun p => p.student_id == 1)).length = 1 :=
  c6_confirmed [⟨1, "A"⟩, ⟨2, "B"⟩] [(1, 50)] [] [] 1 (by decide) (by decide)

/-- C7 counterexample: an attendance observation of -50 flows through the
pipeline unchanged, so the classified row's attendance field is -50, a
negative number — the non-negativity invariant does not hold for arbitrary
input file content. -/
theorem c7_counterexample :
    (buildProfiles [⟨1, "A"⟩] [(1, -50)] [] []).map
        (fun p => p.attendance_percentage) = [-50] ∧
    ¬ (0 : ℚ) ≤ -50 := by
  constructor
  · simp [buildProfiles, profileRow, groupMean, groupMax, groupKeys, valuesFor,
      listMean, listMaxD, lookupQ]
  · norm_num

/-- C7 amended: when every attendance, test and fee event value is
non-negative (as the declared input domains require), every classified row
has non-negative attendance, score and due fields; missing data and
unmatched joins default to 0 (rationals, so all values are finite). -/
theorem c7_amended (students : List Student) (att tests fees : List (Int × ℚ))
    (p : Profile)
    (ha : ∀ e ∈ att, 0 ≤ e.2) (ht : ∀ e ∈ tests, 0 ≤ e.2)
    (hf : ∀ e ∈ fees, 0 ≤ e.2)
    (hp : p ∈ buildProfiles students att tests fees) :
    0 ≤ p.attendance_percentage ∧ 0 ≤ p.avg_score ∧ 0 ≤ p.due_amount := by
  obtain ⟨s, _, rfl⟩ := List.mem_map.mp hp
  exact ⟨groupMean_lookup_nonneg ha _, groupMean_lookup_nonneg ht _,
    groupMax_lookup_nonneg hf _⟩

/-- C7 witness: non-negativity of the classified row of a one-student roster
with empty event tables. -/
theorem c7_amended_witness :
    0 ≤ (Profile.mk 3 "C" 0 0 0 "At Risk" "Low Attendance; Low Test Score").attendance_percentage ∧
    0 ≤ (Profile.mk 3 "C" 0 0 0 "At Risk" "Low Attendance; Low Test Score").avg_score ∧
    0 ≤ (Profile.mk 3 "C" 0 0 0 "At Risk" "Low Attendance; Low Test Score").due_amount :=
  c7_amended [⟨3, "C"⟩] [] [] [] _ (by simp) (by simp) (by simp) (by decide)

/-- C8 counterexample: a student with one fee event of 6000 is classified
with due_amount 6000, and the default (empty) criteria — full-width slider
ranges [0,100], [0,100], [0,5000] — filter that row out: the default filter
returns the empty list, not the full sequence. -/
theorem c8_counterexample :
    buildProfiles [⟨1, "A"⟩] [(1, 100)] [(1, 100)] [(1, 6000)]
      = [⟨1, "A", 100, 100, 6000, "At Risk",
          "Excellent Attendance ✅; Strong Test Score ✅; Pending Fees"⟩] ∧
    filterProfiles defaultCriteria
        [⟨1, "A", 100, 100, 6000, "At Risk",
          "Excellent Attendance ✅; Strong Test Score ✅; Pending Fees"⟩] = [] ∧
    ([⟨1, "A", 100, 100, 6000, "At Risk",
        "Excellent Attendance ✅; Strong Test Score ✅; Pending Fees"⟩] : List Profile)
      ≠ [] := by
  refine ⟨?_, by decide, by decide⟩
  rw [buildProfiles, groupMean_singleton, groupMax_singleton]
  decide

/-- C8 amended: for every profile list and every criteria set the filtered
result is a sublist of the input — order preservation is unconditional; and
the default criteria set is the identity on every profile list whose rows
lie inside the default slider ranges (attendance and score in [0,100], due
amount in [0,5000]) — out-of-range rows are excluded even by the default
filter. -/
theorem c8_amended (l : List Profile) (c : Criteria) :
    (filterProfiles c l).Sublist l ∧
    ((∀ p ∈ l, 0 ≤ p.attendance_percentage ∧ p.attendance_percentage ≤ 100 ∧
        0 ≤ p.avg_score ∧ p.avg_score ≤ 100 ∧
        0 ≤ p.due_amount ∧ p.due_amount ≤ 5000) →
      filterProfiles defaultCriteria l = l) := by
  constructor
  · have s1 : ∀ (so : Option String) (m : List Profile),
        (applySearch so m).Sublist m := by
      intro so m
      cases so with
      | none => exact List.Sublist.refl m
      | some s =>
        show (if s = "" then m else m.filter (matchesSearch s)).Sublist m
        split
        · exact List.Sublist.refl m
        · exact List.filter_sublist m
    have s2 : ∀ (f : Profile → ℚ) (lo hi : ℚ) (m : List Profile),
        (applyRange f lo hi m).Sublist m :=
      fun _ _ _ m => List.filter_sublist m
    have s3 : ∀ (st : String) (m : List Profile),
        (applyStatus st m).Sublist m := by
      intro st m
      unfold applyStatus
      split
      · exact List.Sublist.refl m
      · exact List.filter_sublist m
    have t0 := s1 c.search l
    have t1 := (s2 (fun p => p.attendance_percentage) c.att_lo c.att_hi _).trans t0
    have t2 := (s2 (fun p => p.avg_score) c.score_lo c.score_hi _).trans t1
    have t3 := (s2 (fun p => p.due_amount) c.fees_lo c.fees_hi _).trans t2
    exact (s3 c.status _).trans t3
  · intro h
    have hid : ∀ (f : Profile → ℚ) (lo hi : ℚ) (m : List Profile),
        (∀ p ∈ m, lo ≤ f p ∧ f p ≤ hi) → applyRange f lo hi m = m := by
      intro f lo hi m hm
      refine List.filter_eq_self.mpr (fun p hp => ?_)
      simp only [Bool.and_eq_true, decide_eq_true_eq]
      exact hm p hp
    show applyStatus "All"
        (applyRange (fun p => p.due_amount) 0 5000
          (applyRange (fun p => p.avg_score) 0 100
            (applyRange (fun p => p.attendance_percentage) 0 100
              (applySearch none l)))) = l
    have e1 : applySearch none l = l := rfl
    have e2 : applyRange (fun p => p.attendance_percentage) 0 100 l = l :=
      hid _ _ _ l (fun p hp => ⟨(h p hp).1, (h p hp).2.1⟩)
    have e3 : applyRange (fun p => p.avg_score) 0 100 l = l :=
      hid _ _ _ l (fun p hp => ⟨(h p hp).2.2.1, (h p hp).2.2.2.1⟩)
    have e4 : applyRange (fun p => p.due_amount) 0 5000 l = l :=
      hid _ _ _ l (fun p hp => ⟨(h p hp).2.2.2.2.1, (h p hp).2.2.2.2.2⟩)
    have e5 : applyStatus "All" l = l := by simp [applyStatus]
    rw [e1, e2, e3, e4, e5]

/-- C8 witness: a restrictive criteria set yields a sublist of a concrete
one-row list, and the default filter is the identity on it, the in-range
side condition discharged at that row. -/
theorem c8_amended_witness :
    (filterProfiles ⟨some "D", 0, 100, 0, 100, 0, 5000, "Safe"⟩
        [⟨4, "D", 80, 50, 0, "Safe", "No issues"⟩]).Sublist
      [⟨4, "D", 80, 50, 0, "Safe", "No issues"⟩] ∧
    filterProfiles defaultCriteria [⟨4, "D", 80, 50, 0, "Safe", "No issues"⟩]
        = [⟨4, "D", 80, 50, 0, "Safe", "No issues"⟩] :=
  ⟨(c8_amended [⟨4, "D", 80, 50, 0, "Safe", "No issues"⟩]
      ⟨some "D", 0, 100, 0, 100, 0, 5000, "Safe"⟩).1,
    (c8_amended [⟨4, "D", 80, 50, 0, "Safe", "No issues"⟩]
      ⟨some "D", 0, 100, 0, 100, 0, 5000, "Safe"⟩).2 (by decide)⟩

/-- C9: the classified profiles are a function of the input files alone —
two startups from any two version-counter states (also the state left
behind by a first run, i.e. running the pipeline twice) produce identical
profile sequences, while the version counter itself changes on every run. -/
theorem c9_confirmed (files : InputFiles) (v1 v2 : Option Nat) :
    (runApp v1 files).profiles = (runApp v2 files).profiles ∧
    (runApp (some (runApp v1 files).version_file) files).profiles
        = (runApp v1 files).profiles ∧
    (runApp (some (runApp v1 files).version_file) files).version_file
        = (runApp v1 files).version_file + 1 :=
  ⟨rfl, rfl, rfl⟩

/-- C10: every classified row's status is exactly "Safe" or "At Risk" (with
the space); status "Safe" holds exactly when reasons is "No issues"; when
"At Risk", reasons is the "; "-join of the accumulated label list, in which
the positive labels occur precisely when their branch fires and carry the
literal " ✅" suffix. -/
theorem c10_confirmed (att score due : ℚ) :
    ((risk_status att score due).1 = "Safe" ∨
      (risk_status att score due).1 = "At Risk") ∧
    ((risk_status att score due).1 = "Safe" ↔
      (risk_status att score due).2 = "No issues") ∧
    ((risk_status att score due).1 = "At Risk" →
      (risk_status att score due).2
        = String.intercalate "; " (riskReasons att score due)) ∧
    ("Excellent Attendance ✅" ∈ riskReasons att score due ↔
      (¬ att < 75 ∧ att ≥ 90)) ∧
    ("Strong Test Score ✅" ∈ riskReasons att score due ↔
      (¬ score < 40 ∧ score ≥ 80)) := by
  unfold risk_status riskReasons
  split_ifs <;> simp_all <;> decide

end Dashboard
